import Mathlib

/-!
Shallow embedding of the QuoteScout repository for specification checking.

Sources embedded:
- `src/saas-app/app/dashboard/page.tsx` — the dashboard page: the client-side
  entitlement gate (`canGenerate`), the init effect (session check, profile and
  history fetches, Stripe redirect handling), the `handleGenerate` flow and the
  render branching.
- `src/unnamed/part_000` — the SQL schema: `profiles` table defaults and the
  `handle_new_user` / `on_auth_user_created` trigger.

The external backend (the `/generate-quotes` endpoint with its entitlement
gate and `recordGeneration` side effect) is not part of the repository; where
a claim depends on it, the definition is modelled from the spec and marked so
in its doc comment.

Network effects are modelled as pure functions producing ordered event traces;
HTTP responses and session presence are explicit parameters.
-/

namespace QuoteScout

/-- The `Profile` type of page.tsx (lines 7-11): the body of `GET /profile`. -/
structure Profile where
  email : String
  usage_count : Int
  is_subscribed : Bool
deriving Repr, DecidableEq

/-- The `HistoryItem` type of page.tsx (lines 13-19). -/
structure HistoryItem where
  id : String
  input_type : String
  book_title : Option String
  author : Option String
  created_at : String
deriving Repr, DecidableEq

/-- The `input_type` values admitted by the form and by the SQL check
constraint on `quote_generations.input_type`. -/
inductive InputType
  | book_title
  | text_snippet
deriving Repr, DecidableEq

/-- The form state of the dashboard (page.tsx lines 31-34). -/
structure FormState where
  inputType : InputType
  bookTitle : String
  author : String
  snippet : String
deriving Repr, DecidableEq

/-- A row of `auth.users` as far as the trigger reads it (`new.id`,
`new.email`). -/
structure AuthUser where
  id : String
  email : String
deriving Repr, DecidableEq

/-- A row of `public.profiles` (src/unnamed/part_000 lines 7-16). The two
timestamp columns are filled by the database (`now()`) and are elided. -/
structure ProfileRow where
  id : String
  email : String
  usage_count : Int
  is_subscribed : Bool
  stripe_customer_id : Option String
  stripe_subscription_id : Option String
deriving Repr, DecidableEq

/-- A row of `public.quote_generations` (src/unnamed/part_000 lines 19-28),
ids and timestamp elided (database-generated). -/
structure GenRecord where
  user_id : String
  input_type : InputType
  book_title : Option String
  author : Option String
  input_text : Option String
deriving Repr, DecidableEq

/-- Observable client events, in the order the dashboard code performs them.
Fetch events carry the bearer token put in the Authorization header. -/
inductive Event
  | sessionChecked (user : Option AuthUser)
  | redirectHome
  | fetchProfileEv (bearer : String)
  | fetchHistoryEv (bearer : String)
  | fetchGenerate (bearer : String)
  | setLoadingFalse
  | setShowSuccessTrue
  | replaceUrl (path : String)
  | alert (msg : String)
  | downloadPdf (title : String)
deriving Repr, DecidableEq

/-- `getToken` (page.tsx lines 42-45): `session?.access_token ?? ''`. The
session is modelled by its access token when present. -/
def getToken (session : Option String) : String :=
  session.getD ""

/-- `usageCount` (page.tsx line 177): `profile?.usage_count ?? 0`. -/
def usageCount (profile : Option Profile) : Int :=
  (profile.map Profile.usage_count).getD 0

/-- `canGenerate` (page.tsx line 178):
`profile?.is_subscribed || usageCount < 1`. -/
def canGenerate (profile : Option Profile) : Bool :=
  (profile.map Profile.is_subscribed).getD false || decide (usageCount profile < 1)

/-- `fetchProfile` (page.tsx lines 47-52): the profile state is replaced by
the response body only when the response is ok (`none` models a non-ok
response), otherwise it is left as it was. -/
def fetchProfileUpdate (current : Option Profile) (response : Option Profile) :
    Option Profile :=
  match response with
  | some body => some body
  | none => current

/-- JS falsiness of `s.trim()`: true exactly when the string holds no
non-whitespace character (core `String.trim` is extern-implemented and does
not reduce in the kernel, so the check is embedded at the character level). -/
def trimEmpty (s : String) : Bool :=
  s.data.all Char.isWhitespace

/-- The guard clauses of `handleGenerate` (page.tsx lines 86-91): the alert
message of the failing validation (`inputType === mode && !field.trim()`),
or `none` when validation passes. -/
def missingInputMsg (form : FormState) : Option String :=
  match form.inputType with
  | InputType.book_title =>
      if trimEmpty form.bookTitle then some "Please enter a book title."
      else none
  | InputType.text_snippet =>
      if trimEmpty form.snippet then some "Please paste or upload a text snippet."
      else none

/-- Modelled from the spec: the gate contract of section 4.1,
`canGenerate(usage_count, is_subscribed) -> bool`, as enforced by the
external backend (the backend itself is not in src/). -/
def canGenerateGate (usage_count : Int) (is_subscribed : Bool) : Bool :=
  is_subscribed || decide (usage_count < 1)

/-- Outcome of the `POST /generate-quotes` call as the client observes it:
`ok` (PDF body), `quota` (HTTP 402), `failDetail` (non-ok response with a
`detail` body), `netError` (the fetch threw). -/
inductive GenOutcome
  | ok
  | quota
  | failDetail (detail : String)
  | netError
deriving Repr, DecidableEq

/-- Backend-held state for one user: the profile row and the generation
records owned by that user. -/
structure BackendState where
  profile : ProfileRow
  records : List GenRecord
deriving Repr, DecidableEq

/-- Modelled from the spec: the GenerationRecord written on success (section
3: `input_kind` determines which of book_title and input_text is primary). -/
def recordOf (uid : String) (req : FormState) : GenRecord :=
  match req.inputType with
  | InputType.book_title =>
      { user_id := uid, input_type := InputType.book_title,
        book_title := some req.bookTitle, author := some req.author,
        input_text := none }
  | InputType.text_snippet =>
      { user_id := uid, input_type := InputType.text_snippet,
        book_title := none, author := none,
        input_text := some req.snippet }

/-- Modelled from the spec: the external backend handler of
`POST /generate-quotes` (sections 4.1 and 6) — not in src/. If the gate
denies, HTTP 402 and no mutation; if the external generation fails, a
detail error and no mutation; on success, usage_count is incremented by 1
and exactly one GenerationRecord is appended, atomically. -/
def generateQuotes (st : BackendState) (req : FormState) (externalFails : Bool) :
    GenOutcome × BackendState :=
  if !canGenerateGate st.profile.usage_count st.profile.is_subscribed then
    (GenOutcome.quota, st)
  else if externalFails then
    (GenOutcome.failDetail "Quote generation failed", st)
  else
    (GenOutcome.ok,
      { profile := { st.profile with usage_count := st.profile.usage_count + 1 },
        records := st.records ++ [recordOf st.profile.id req] })

/-- The outcome and resulting backend state of the generate call as issued by
the client: a transport failure (`netFails`) means the request is not
processed and the client lands in the catch branch. -/
def generateCallResult (st : BackendState) (req : FormState)
    (externalFails netFails : Bool) : GenOutcome × BackendState :=
  if netFails then (GenOutcome.netError, st)
  else generateQuotes st req externalFails

/-- `handleGenerate` (page.tsx lines 85-138) combined with the backend state
transition of the generate call. Returns the backend state after the attempt
and the ordered client event trace: validation alert with no network call
(lines 86-91); otherwise one `POST /generate-quotes` with
`Authorization: Bearer getToken(session)` (lines 95-108), then — on 402 the
upgrade alert (lines 110-113), on other non-ok the detail alert (lines
114-117), on a thrown fetch the generic alert (lines 133-134), and on ok the
PDF download followed by the profile and history refresh (lines 119-132). -/
def dashboardGenerate (st : BackendState) (session : Option String)
    (form : FormState) (externalFails netFails : Bool) :
    BackendState × List Event :=
  match missingInputMsg form with
  | some msg => (st, [Event.alert msg])
  | none =>
      let token := getToken session
      match generateCallResult st form externalFails netFails with
      | (GenOutcome.ok, st2) =>
          (st2, [Event.fetchGenerate token, Event.downloadPdf form.bookTitle,
                 Event.fetchProfileEv token, Event.fetchHistoryEv token])
      | (GenOutcome.quota, st2) =>
          (st2, [Event.fetchGenerate token,
                 Event.alert "Free tier limit reached. Click \"Upgrade to Pro\" to continue."])
      | (GenOutcome.failDetail d, st2) =>
          (st2, [Event.fetchGenerate token, Event.alert ("Error: " ++ d)])
      | (GenOutcome.netError, st2) =>
          (st2, [Event.fetchGenerate token,
                 Event.alert "Something went wrong. Please try again."])

/-- The Stripe redirect check (page.tsx lines 74-79): given the query
parameters of the current URL, if `success=true` then set the success flag,
re-fetch the profile, and replace the URL with `/dashboard` (stripping all
query parameters). Returns the event trace and the query parameters of the
resulting URL. -/
def stripeRedirectStep (token : String) (params : List (String × String)) :
    List Event × List (String × String) :=
  if List.lookup "success" params = some "true" then
    ([Event.setShowSuccessTrue, Event.fetchProfileEv token,
      Event.replaceUrl "/dashboard"], [])
  else ([], params)

/-- The dashboard init effect (page.tsx lines 63-81): query the session
provider (`getUser`); on error or no user redirect to the landing page with
no further calls; otherwise fetch profile and history with the session
bearer, clear the loading flag, and run the Stripe redirect check. -/
def initFlow (user : Option AuthUser) (session : Option String)
    (params : List (String × String)) : List Event :=
  Event.sessionChecked user ::
  match user with
  | none => [Event.redirectHome]
  | some _ =>
      let token := getToken session
      [Event.fetchProfileEv token, Event.fetchHistoryEv token,
       Event.setLoadingFalse] ++ (stripeRedirectStep token params).1

/-- The component state of the dashboard (page.tsx lines 22-28); form and
transient button flags elided where render branching does not depend on
them. Initial values: everything empty, `loading = true`. -/
structure DashState where
  user : Option AuthUser
  profile : Option Profile
  history : List HistoryItem
  loading : Bool
  showSuccess : Bool
deriving Repr, DecidableEq

/-- The render branching of the dashboard (page.tsx lines 182-358), reduced
to its data-dependent decisions: the loading spinner when `loading` is set;
otherwise the PRO badge (`profile?.is_subscribed`), the upgraded-success
banner (`showSuccess`), the free-tier banner (shown when not subscribed,
with its `usageCount === 0` variant), and whether the action button is the
generate button (`canGenerate`) or the upgrade button. -/
inductive View
  | loadingView
  | dashboardView (proBadge : Bool) (successBanner : Bool)
      (freeTierBanner : Option Bool) (generateButton : Bool)
deriving Repr, DecidableEq

/-- `render` of the dashboard component (page.tsx lines 182-358). -/
def render (st : DashState) : View :=
  if st.loading then View.loadingView
  else
    View.dashboardView
      ((st.profile.map Profile.is_subscribed).getD false)
      st.showSuccess
      (if (st.profile.map Profile.is_subscribed).getD false then none
       else some (usageCount st.profile == 0))
      (canGenerate st.profile)

/-- `insert into public.profiles (id, email) values (...)` under the DDL
defaults of src/unnamed/part_000 lines 7-16: `usage_count` defaults to 0,
`is_subscribed` to false, the Stripe references to null. -/
def insertProfileDefaults (id email : String) : ProfileRow :=
  { id := id, email := email, usage_count := 0, is_subscribed := false,
    stripe_customer_id := none, stripe_subscription_id := none }

/-- The `handle_new_user` trigger function (src/unnamed/part_000 lines
52-60): `insert into public.profiles (id, email) values (new.id, new.email)`. -/
def handle_new_user (u : AuthUser) : ProfileRow :=
  insertProfileDefaults u.id u.email

/-- The `on_auth_user_created` trigger wiring (src/unnamed/part_000 lines
62-65): after each insert into `auth.users`, `handle_new_user` runs and the
profiles table gains the row it inserts. -/
def registerUser (profiles : List ProfileRow) (u : AuthUser) : List ProfileRow :=
  profiles ++ [handle_new_user u]

/-- Whether an event is a protected (bearer-authenticated) network call. -/
def isProtectedFetch : Event → Bool
  | Event.fetchProfileEv _ => true
  | Event.fetchHistoryEv _ => true
  | Event.fetchGenerate _ => true
  | _ => false

/-- Whether an event is the session-provider check resolving. -/
def isSessionCheck : Event → Bool
  | Event.sessionChecked _ => true
  | _ => false

/-- Whether an event sets the upgraded-success flag. -/
def isSetShowSuccess : Event → Bool
  | Event.setShowSuccessTrue => true
  | _ => false

/-- Whether an event is a `GET /profile` fetch. -/
def isFetchProfile : Event → Bool
  | Event.fetchProfileEv _ => true
  | _ => false

/-- True when some protected fetch occurs in the trace strictly before the
session check has resolved. -/
def fetchBeforeCheck : List Event → Bool
  | [] => false
  | e :: es =>
      if isSessionCheck e then false
      else if isProtectedFetch e then true
      else fetchBeforeCheck es

/-- The bearer token carried by a protected fetch event. -/
def bearerOf : Event → Option String
  | Event.fetchProfileEv b => some b
  | Event.fetchHistoryEv b => some b
  | Event.fetchGenerate b => some b
  | _ => none

/-- An event either is not a protected fetch or carries the given bearer. -/
def bearerOk (tok : String) (e : Event) : Bool :=
  match bearerOf e with
  | some b => decide (b = tok)
  | none => true

/-- Index of the first event satisfying the predicate. -/
def firstIdx (p : Event → Bool) : List Event → Option Nat
  | [] => none
  | e :: es => if p e then some 0 else (firstIdx p es).map (· + 1)

/-- True when the trace sets the upgraded-success flag strictly before any
profile re-fetch is issued (hence before any such fetch resolves). -/
def successAssertedBeforeRefetch (tr : List Event) : Bool :=
  match firstIdx isSetShowSuccess tr, firstIdx isFetchProfile tr with
  | some i, some j => decide (i < j)
  | some _, none => true
  | _, _ => false

/-- Sample profile row: the free generation already used, not subscribed. -/
def usedFreeProfile : ProfileRow :=
  { id := "u1", email := "u1@example.com", usage_count := 1,
    is_subscribed := false, stripe_customer_id := none,
    stripe_subscription_id := none }

/-- Sample backend state built on `usedFreeProfile`. -/
def usedFreeState : BackendState :=
  { profile := usedFreeProfile, records := [] }

/-- Sample valid book-title form. -/
def titleForm : FormState :=
  { inputType := InputType.book_title, bookTitle := "The Great Gatsby",
    author := "F. Scott Fitzgerald", snippet := "" }

/-- Sample invalid form: book-title input with an empty title. -/
def emptyTitleForm : FormState :=
  { inputType := InputType.book_title, bookTitle := "", author := "",
    snippet := "some pasted passage" }

/-- Claim C1: for every pair (usage_count, is_subscribed), the entitlement
predicate `canGenerate` of the dashboard returns true if and only if
is_subscribed is true or usage_count < 1; it is a pure function of the
profile (no side effects in the embedding). -/
theorem canGenerate_true_iff (e : String) (u : Int) (s : Bool) :
    canGenerate (some { email := e, usage_count := u, is_subscribed := s })
      = true ↔ (s = true ∨ u < 1) := by
  simp [canGenerate, usageCount]

/-- Claim C5: the session check is the head of the init trace, so no
protected network call (profile, history or generate fetch) is ever issued
while the session state is still unknown; and rendering any component state
whose loading flag is set yields the loading view — never the dashboard
content and never an unauthenticated prompt. -/
theorem unknown_session_no_protected_fetch (user : Option AuthUser)
    (session : Option String) (params : List (String × String))
    (st : DashState) :
    fetchBeforeCheck (initFlow user session params) = false ∧
    render { st with loading := true } = View.loadingView := by
  constructor
  · rfl
  · rfl

/-- Claim C9: registering a new identity fires the `handle_new_user`
trigger, which appends exactly one profiles row with the same identifier and
email, and the DDL defaults usage_count = 0 and is_subscribed = false. -/
theorem register_creates_default_profile (profiles : List ProfileRow)
    (u : AuthUser) :
    registerUser profiles u =
      profiles ++ [{ id := u.id, email := u.email, usage_count := 0,
                     is_subscribed := false, stripe_customer_id := none,
                     stripe_subscription_id := none }] := rfl

/-- Claim C10: when the profile fetch gets a non-ok response, the locally
held profile stays null; the derived usage count then defaults to 0, the
client-side gate evaluates to true (fails open), and the rendered dashboard
still offers the generate button. -/
theorem profile_fetch_fail_gate_opens :
    fetchProfileUpdate none none = none ∧
    usageCount none = 0 ∧
    canGenerate none = true ∧
    render { user := none, profile := none, history := [], loading := false,
             showSuccess := false } =
      View.dashboardView false false (some true) true := by
  refine ⟨rfl, rfl, rfl, rfl⟩

/-- Claim C2: for every generation attempt whose generate call does not
succeed (quota denial, backend failure or transport failure), no state is
mutated — the backend state after `handleGenerate`, and in particular
usage_count and the record list, is exactly the state before; increment and
record-append happen only with the success outcome. -/
theorem generate_failure_no_mutation (st : BackendState)
    (session : Option String) (form : FormState) (ef nf : Bool)
    (h : (generateCallResult st form ef nf).1 ≠ GenOutcome.ok) :
    (dashboardGenerate st session form ef nf).1 = st ∧
    (generateCallResult st form ef nf).2 = st := by
  have h2 : (generateCallResult st form ef nf).2 = st := by
    unfold generateCallResult generateQuotes at h ⊢
    split at h
    · simp_all
    · split at h
      · simp_all
      · split at h
        · simp_all
        · exact absurd rfl h
  refine ⟨?_, h2⟩
  unfold dashboardGenerate
  split
  · rfl
  · rcases hgc : generateCallResult st form ef nf with ⟨out, st2⟩
    have hst2 : st2 = st := by rw [hgc] at h2; exact h2
    rw [hgc] at h
    cases out
    · exact absurd rfl h
    all_goals simp [hgc, hst2]

/-- Witness for `generate_failure_no_mutation`: a non-subscribed user whose
free generation is already used gets a non-ok outcome, and the state is
unchanged. -/
theorem generate_failure_no_mutation_witness :
    (generateCallResult usedFreeState titleForm false false).1 ≠ GenOutcome.ok ∧
    (dashboardGenerate usedFreeState (some "tok") titleForm false false).1 =
      usedFreeState ∧
    (generateCallResult usedFreeState titleForm false false).2 = usedFreeState :=
  ⟨by decide,
   (generate_failure_no_mutation usedFreeState (some "tok") titleForm false false
      (by decide)).1,
   (generate_failure_no_mutation usedFreeState (some "tok") titleForm false false
      (by decide)).2⟩

/-- Claim C3: when the gate predicate is false and a valid generation is
attempted anyway, the backend answers with the distinguishable quota outcome
(HTTP 402), the client surfaces the upgrade-prompt alert — not the generic
error alert — leaves the state unchanged, and issues exactly one generate
request (no retry). -/
theorem gate_false_quota_prompt (st : BackendState) (session : Option String)
    (form : FormState) (ef : Bool)
    (hv : missingInputMsg form = none)
    (hg : canGenerateGate st.profile.usage_count st.profile.is_subscribed = false) :
    (generateCallResult st form ef false).1 = GenOutcome.quota ∧
    dashboardGenerate st session form ef false =
      (st, [Event.fetchGenerate (getToken session),
            Event.alert "Free tier limit reached. Click \"Upgrade to Pro\" to continue."]) := by
  have hq : generateCallResult st form ef false = (GenOutcome.quota, st) := by
    simp [generateCallResult, generateQuotes, hg]
  refine ⟨by rw [hq], ?_⟩
  simp [dashboardGenerate, hv, hq]

/-- Witness for `gate_false_quota_prompt`: the used-up free-tier user with a
valid book-title form is denied with the quota outcome and the upgrade
prompt. -/
theorem gate_false_quota_prompt_witness :
    (generateCallResult usedFreeState titleForm false false).1 = GenOutcome.quota ∧
    dashboardGenerate usedFreeState (some "tok") titleForm false false =
      (usedFreeState,
       [Event.fetchGenerate "tok",
        Event.alert "Free tier limit reached. Click \"Upgrade to Pro\" to continue."]) :=
  gate_false_quota_prompt usedFreeState (some "tok") titleForm false
    (by decide) (by decide)

/-- Claim C4: a generation request with a missing required input (empty book
title in book-title mode, or empty snippet in snippet mode) is rejected with
an immediate validation alert; the trace contains no network call of any
kind, so the flow terminates before any fetch, and the state is unchanged. -/
theorem missing_input_no_network (st : BackendState) (session : Option String)
    (form : FormState) (ef nf : Bool)
    (h : (form.inputType = InputType.book_title ∧ form.bookTitle = "") ∨
         (form.inputType = InputType.text_snippet ∧ form.snippet = "")) :
    (dashboardGenerate st session form ef nf).1 = st ∧
    (dashboardGenerate st session form ef nf).2.filter isProtectedFetch = [] ∧
    (dashboardGenerate st session form ef nf).2 =
      [Event.alert (match form.inputType with
        | InputType.book_title => "Please enter a book title."
        | InputType.text_snippet => "Please paste or upload a text snippet.")] := by
  have hm : missingInputMsg form =
      some (match form.inputType with
        | InputType.book_title => "Please enter a book title."
        | InputType.text_snippet => "Please paste or upload a text snippet.") := by
    rcases h with ⟨ht, hb⟩ | ⟨ht, hs⟩
    · simp [missingInputMsg, ht, hb, trimEmpty]
    · simp [missingInputMsg, ht, hs, trimEmpty]
  refine ⟨?_, ?_, ?_⟩ <;> simp [dashboardGenerate, hm, isProtectedFetch]

/-- Witness for `missing_input_no_network`: an empty book title in book-title
mode produces only the validation alert and no fetch. -/
theorem missing_input_no_network_witness :
    (dashboardGenerate usedFreeState (some "tok") emptyTitleForm false false).1 =
      usedFreeState ∧
    (dashboardGenerate usedFreeState (some "tok") emptyTitleForm false false).2.filter
      isProtectedFetch = [] ∧
    (dashboardGenerate usedFreeState (some "tok") emptyTitleForm false false).2 =
      [Event.alert "Please enter a book title."] :=
  missing_input_no_network usedFreeState (some "tok") emptyTitleForm false false
    (Or.inl ⟨rfl, rfl⟩)

/-- Claim C6, counterexample: with the session absent, `getToken` falls back
to the empty string and `handleGenerate` still issues the protected
`POST /generate-quotes` call, carrying `Authorization: Bearer` with an empty
token — refuting "whenever the session is absent, no protected network call
is issued at all". -/
theorem absent_session_still_fetches_cex :
    getToken none = "" ∧
    (dashboardGenerate usedFreeState none titleForm false false).2.filter
      isProtectedFetch = [Event.fetchGenerate ""] := by
  exact ⟨rfl, by decide⟩

/-- Claim C6 as amended: every request the dashboard issues carries
`Authorization: Bearer t` where `t` is the current session's access token,
or the empty string when the session is absent; the initial protected
fetches are issued only when the user check succeeds (with no user the page
redirects without fetching) — but `handleGenerate` still issues its call
when the session is absent, with the empty bearer. -/
theorem bearer_from_session_amended (st : BackendState) (session : Option String)
    (form : FormState) (ef nf : Bool) (user : Option AuthUser)
    (params : List (String × String)) :
    (dashboardGenerate st session form ef nf).2.all
      (bearerOk (getToken session)) = true ∧
    (initFlow user session params).all (bearerOk (getToken session)) = true ∧
    (initFlow none session params).filter isProtectedFetch = [] := by
  refine ⟨?_, ?_, ?_⟩
  · unfold dashboardGenerate
    split
    · simp [bearerOk, bearerOf]
    · rcases hgc : generateCallResult st form ef nf with ⟨out, st2⟩
      cases out <;> simp [bearerOk, bearerOf]
  · cases user with
    | none => simp [initFlow, bearerOk, bearerOf]
    | some u =>
        by_cases hl : List.lookup "success" params = some "true" <;>
          simp [initFlow, stripeRedirectStep, hl, bearerOk, bearerOf]
  · rfl

/-- Claim C7, counterexample: on return from checkout with `success=true`,
the code sets the upgraded-success flag (position 0 of the redirect-check
trace) before the profile re-fetch is even issued (position 1), and the
render asserts the success banner while the fetched profile still says
`is_subscribed = false` — refuting "until that fetch resolves, the local UI
never asserts upgrade success from the redirect parameter alone". -/
theorem success_banner_before_refetch_cex :
    successAssertedBeforeRefetch
      (stripeRedirectStep "tok" [("success", "true")]).1 = true ∧
    render { user := none,
             profile := some { email := "u1@example.com", usage_count := 1,
                               is_subscribed := false },
             history := [], loading := false, showSuccess := true } =
      View.dashboardView false true (some false) false := by
  exact ⟨by decide, rfl⟩

/-- Claim C7 as amended: on return from checkout with a success indicator in
the navigation state, the client sets and shows the upgraded confirmation
immediately from the redirect parameter, then re-fetches the identity
record, then strips the URL; the confirmation is asserted before the
re-fetch resolves. -/
theorem stripe_return_sets_banner_then_refetches (token : String)
    (params : List (String × String))
    (h : List.lookup "success" params = some "true") :
    (stripeRedirectStep token params).1 =
      [Event.setShowSuccessTrue, Event.fetchProfileEv token,
       Event.replaceUrl "/dashboard"] := by
  simp [stripeRedirectStep, h]

/-- Witness for `stripe_return_sets_banner_then_refetches` at a concrete
parameter list. -/
theorem stripe_return_sets_banner_then_refetches_witness :
    (stripeRedirectStep "tok2" [("success", "true")]).1 =
      [Event.setShowSuccessTrue, Event.fetchProfileEv "tok2",
       Event.replaceUrl "/dashboard"] :=
  stripe_return_sets_banner_then_refetches "tok2" [("success", "true")] (by decide)

/-- Claim C8: processing a checkout return with `success=true` strips the
query parameter from the navigation state (the URL is replaced by plain
`/dashboard`), and re-running the redirect check on the resulting state
triggers nothing — the parameter is consumed exactly once. -/
theorem success_param_consumed_once (token token2 : String)
    (params : List (String × String))
    (h : List.lookup "success" params = some "true") :
    List.lookup "success" (stripeRedirectStep token params).2 = none ∧
    (stripeRedirectStep token2 (stripeRedirectStep token params).2).1 = [] := by
  simp [stripeRedirectStep, h]

/-- Witness for `success_param_consumed_once` at a concrete parameter
list. -/
theorem success_param_consumed_once_witness :
    List.lookup "success"
      (stripeRedirectStep "tokA" [("success", "true")]).2 = none ∧
    (stripeRedirectStep "tokB"
      (stripeRedirectStep "tokA" [("success", "true")]).2).1 = [] :=
  success_param_consumed_once "tokA" "tokB" [("success", "true")] (by decide)

end QuoteScout
